import Mathlib

/-!
# Verification of the libnciplugin NCI adapter core

A shallow embedding of the NCI adapter state machine (`src/nci_adapter.c`)
and the NCI target data path (`nci_target.c`) of libnciplugin, together with
theorems settling the spec claims about them.

Modelling conventions:
* C byte buffers (`GUtilData`, `guint8*` + length) are `List Nat`; the
  separate length fields of the C structs are the list lengths.
* `memcmp(a, b, n) == 0` is `memcmpN a b n`, i.e. equality of the first `n`
  elements.
* Fixed-size C byte arrays that are always compared in full (`sens_res[2]`,
  `app_data[4]`, `nfcid0[4]`) are tuples.
* Enumerations of libncicore / nfcd that the code dispatches on are inductive
  types; numeric constants from those headers (NCI status codes, `NCI_TECH`
  bitmasks, the static RF connection id) are `Nat` definitions with the values
  of the NCI specification, as used by libncicore.
* GLib timers are `Option Nat` fields (`none` = not armed, `some ms` = armed
  with that period/timeout).
* Calls out of the adapter (NCI commands, notifications to the upper layer)
  are accumulated as a `List` of output events.
-/

/-- NCI RF interface identifiers (libncicore `NCI_RF_INTERFACE`). -/
inductive NCI_RF_INTERFACE where
  | NFCEE_DIRECT
  | FRAME
  | ISO_DEP
  | NFC_DEP
  | PROPRIETARY
deriving DecidableEq

/-- NCI RF protocol identifiers (libncicore `NCI_PROTOCOL`). -/
inductive NCI_PROTOCOL where
  | UNDETERMINED
  | T1T
  | T2T
  | T3T
  | T5T
  | ISO_DEP
  | NFC_DEP
  | PROPRIETARY
deriving DecidableEq

/-- NCI RF technology and mode identifiers (libncicore `NCI_MODE`).
`PASSIVE_POLL_V`/`PASSIVE_LISTEN_V` are the 15693 modes (the two header
names alias the same values). -/
inductive NCI_MODE where
  | PASSIVE_POLL_A
  | PASSIVE_POLL_B
  | PASSIVE_POLL_F
  | PASSIVE_POLL_V
  | ACTIVE_POLL_A
  | ACTIVE_POLL_F
  | PASSIVE_LISTEN_A
  | PASSIVE_LISTEN_B
  | PASSIVE_LISTEN_F
  | PASSIVE_LISTEN_V
  | ACTIVE_LISTEN_A
  | ACTIVE_LISTEN_F
deriving DecidableEq

/-- nfcd technology identifiers (`NFC_TECHNOLOGY`). -/
inductive NFC_TECHNOLOGY where
  | UNKNOWN
  | A
  | B
  | F
deriving DecidableEq

/-- nfcd protocol identifiers (`NFC_PROTOCOL`), the ones the target code uses. -/
inductive NFC_PROTOCOL where
  | UNKNOWN
  | T1_TAG
  | T2_TAG
  | T3_TAG
  | T4A_TAG
  | T4B_TAG
  | NFC_DEP
deriving DecidableEq

/-- NCI RF states (libncicore `NCI_STATE`, `NCI_RFST_*`). -/
inductive NCI_RF_STATE where
  | RFST_IDLE
  | RFST_DISCOVERY
  | RFST_W4_ALL_DISCOVERIES
  | RFST_W4_HOST_SELECT
  | RFST_POLL_ACTIVE
  | RFST_LISTEN_ACTIVE
  | RFST_LISTEN_SLEEP
deriving DecidableEq

/-- nfcd transmission status (`NFC_TRANSMIT_STATUS`). -/
inductive NFC_TRANSMIT_STATUS where
  | OK
  | ERROR
deriving DecidableEq

/-- Internal adapter states (`NCI_ADAPTER_STATE` in nci_adapter.c). -/
inductive NCI_ADAPTER_STATE where
  | IDLE
  | HAVE_TARGET
  | HAVE_INITIATOR
  | REACTIVATING_TARGET
  | REACTIVATING_CE
  | REACTIVATED_CE
deriving DecidableEq

/-! ## Numeric constants -/

/-- `#define RANDOM_UID_SIZE (4)` (nci_adapter.c). -/
def RANDOM_UID_SIZE : Nat := 4

/-- `#define RANDOM_UID_START_BYTE (0x08)` (nci_adapter.c). -/
def RANDOM_UID_START_BYTE : Nat := 0x08

/-- `#define PRESENCE_CHECK_PERIOD_MS (250)` (nci_adapter.c). -/
def PRESENCE_CHECK_PERIOD_MS : Nat := 250

/-- `#define CE_REACTIVATION_TIMEOUT_MS (1500)` (nci_adapter.c). -/
def CE_REACTIVATION_TIMEOUT_MS : Nat := 1500

/-- `NCI_STATIC_RF_CONN_ID` (libncicore nci_types.h): the NCI static RF
connection id, 0. -/
def NCI_STATIC_RF_CONN_ID : Nat := 0

/-- `NCI_STATUS_OK` (libncicore, per the NCI specification status codes). -/
def NCI_STATUS_OK : Nat := 0x00

/-- `NCI_STATUS_RF_FRAME_CORRUPTED` (libncicore, NCI status code 0x02). -/
def NCI_STATUS_RF_FRAME_CORRUPTED : Nat := 0x02

/-- `NCI_STATUS_STATUS_OK_1_BIT` .. `NCI_STATUS_STATUS_OK_7_BIT`
(libncicore, NCI status codes 0x11..0x17): `STATUS_OK_n_BIT` for a Short
Frame of `n` bits. -/
def NCI_STATUS_STATUS_OK_N_BIT (n : Nat) : Nat := 0x10 + n

/-! `NCI_TECH` bitmask constants (libncicore nci_types.h). Only the listen
bits for technologies A and B and the all-techs mask are used by the
adapter's card-emulation tech locking. -/

/-- `NCI_TECH_NONE` (libncicore). -/
def NCI_TECH_NONE : Nat := 0

/-- `NCI_TECH_A_LISTEN` bit (libncicore). -/
def NCI_TECH_A_LISTEN : Nat := 0x02

/-- `NCI_TECH_B_LISTEN` bit (libncicore). -/
def NCI_TECH_B_LISTEN : Nat := 0x08

/-- `NCI_TECH_ALL` (libncicore): mask with every technology bit set. -/
def NCI_TECH_ALL : Nat := 0xffff

/-! ## Byte-buffer primitives -/

/-- `memcmp(a, b, n) == 0` on byte buffers: the first `n` bytes agree. -/
def memcmpN (a b : List Nat) (n : Nat) : Bool :=
  decide (a.take n = b.take n)

/-! ## Parsed mode parameters (libncicore `NciModeParam`) -/

/-- `NciModeParamPollA` (libncicore): parsed NFC-A poll mode parameters.
`sens_res` is the fixed 2-byte SENS_RES; `nfcid1` holds the `nfcid1_len`
meaningful bytes of the NFCID1. -/
structure NciModeParamPollA where
  sens_res : Nat × Nat
  nfcid1_len : Nat
  nfcid1 : List Nat
  sel_res_len : Nat
  sel_res : Nat
deriving DecidableEq

/-- `NciModeParamPollB` (libncicore): parsed NFC-B poll mode parameters.
`nfcid0` and `app_data` are fixed 4-byte fields; `prot_info` is the
variable-length protocol info (`GUtilData`). -/
structure NciModeParamPollB where
  nfcid0 : Nat × Nat × Nat × Nat
  fsc : Nat
  app_data : Nat × Nat × Nat × Nat
  prot_info : List Nat
deriving DecidableEq

/-- The `NciModeParam` union, as a sum: the variant stored is the one for
the activation's mode. Variants the match predicate never reads
(poll F, listen F, ...) are collapsed into `other`. -/
inductive NciModeParam where
  | poll_a (p : NciModeParamPollA)
  | poll_b (p : NciModeParamPollB)
  | other
deriving DecidableEq

instance : Inhabited NciModeParamPollA := ⟨⟨(0, 0), 0, [], 0, 0⟩⟩

instance : Inhabited NciModeParamPollB := ⟨⟨(0, 0, 0, 0), 0, (0, 0, 0, 0), []⟩⟩

/-- C union field access `mp->poll_a` (returns the stored variant; the
default is the C reinterpretation of a wrong variant, which well-formed
callers never hit). -/
def NciModeParam.pollAOf : NciModeParam → NciModeParamPollA
  | .poll_a p => p
  | _ => default

/-- C union field access `mp->poll_b`. -/
def NciModeParam.pollBOf : NciModeParam → NciModeParamPollB
  | .poll_b p => p
  | _ => default

/-! ## Activation notification and interface info -/

/-- `NciIntfActivationNtf` (libncicore): the fields the adapter reads.
The C struct carries `mode_param_bytes`/`mode_param_len` and
`activation_param_bytes`/`activation_param_len`; the length fields are the
list lengths here. `mode_param` is the parsed view (NULL when parsing
failed). -/
structure NciIntfActivationNtf where
  rf_intf : NCI_RF_INTERFACE
  protocol : NCI_PROTOCOL
  mode : NCI_MODE
  mode_param_bytes : List Nat
  mode_param : Option NciModeParam
  activation_param_bytes : List Nat
deriving DecidableEq

/-- `NciAdapterIntfInfo` (nci_adapter.c): the adapter's deep copy of an
activation notification. -/
structure NciAdapterIntfInfo where
  rf_intf : NCI_RF_INTERFACE
  protocol : NCI_PROTOCOL
  mode : NCI_MODE
  mode_param : List Nat
  activation_param : List Nat
  mode_param_parsed : Option NciModeParam
deriving DecidableEq

/-- `nci_adapter_intf_info_new` (nci_adapter.c): snapshot the notification.
`nci_util_copy_mode_param` deep-copies the parsed mode param (and returns
NULL for a NULL input), which on this embedding is the identity. -/
def nci_adapter_intf_info_new (ntf : NciIntfActivationNtf) : NciAdapterIntfInfo :=
  { rf_intf := ntf.rf_intf
    protocol := ntf.protocol
    mode := ntf.mode
    mode_param := ntf.mode_param_bytes
    activation_param := ntf.activation_param_bytes
    mode_param_parsed := ntf.mode_param }

/-! ## The match predicate (nci_adapter.c lines 264-376) -/

/-- `mode_param_match_poll_a` (nci_adapter.c): compare parsed NFC-A poll
params. `memcmp(pa1->sens_res, pa2->sens_res, sizeof(pa2->sens_res))` is the
tuple equality; `pa->nfcid1[0]` is `pa.nfcid1.getD 0 0`; the final
`memcmp(pa1->nfcid1, pa2->nfcid1, pa2->nfcid1_len)` is `memcmpN`. -/
def mode_param_match_poll_a (pa1 pa2 : NciModeParamPollA) : Bool :=
  if pa1.sel_res = pa2.sel_res ∧ pa1.sel_res_len = pa2.sel_res_len ∧
      pa1.nfcid1_len = pa2.nfcid1_len ∧ pa1.sens_res = pa2.sens_res then
    -- A single-size (4 byte) NFCID1 starting with 08h is dynamically
    -- generated, so the remaining bytes are not compared.
    if pa1.nfcid1_len = RANDOM_UID_SIZE ∧
        pa1.nfcid1.getD 0 0 = pa2.nfcid1.getD 0 0 ∧
        pa2.nfcid1.getD 0 0 = RANDOM_UID_START_BYTE then
      true
    else
      memcmpN pa1.nfcid1 pa2.nfcid1 pa2.nfcid1_len
  else
    false

/-- `mode_param_match_poll_b` (nci_adapter.c): compare all fields except the
UID (`nfcid0`). `gutil_data_equal` is equality of size and bytes, here list
equality; the explicit size comparison of the C code is kept. -/
def mode_param_match_poll_b (pb1 pb2 : NciModeParamPollB) : Bool :=
  decide (pb1.fsc = pb2.fsc) &&
  decide (pb1.app_data = pb2.app_data) &&
  decide (pb1.prot_info.length = pb2.prot_info.length) &&
  decide (pb1.prot_info = pb2.prot_info)

/-- The special-cased portion of `nci_adapter_info_mode_params_matches`:
`some r` when one of the `return` statements inside the nested switch fires,
`none` when the C code falls through to the raw full comparison. -/
def nci_adapter_mode_params_special (info : NciAdapterIntfInfo)
    (ntf : NciIntfActivationNtf) : Option Bool :=
  match info.mode_param_parsed, ntf.mode_param with
  | some mp1, some mp2 =>
    match ntf.mode, ntf.rf_intf with
    | .PASSIVE_POLL_A, .FRAME => some (mode_param_match_poll_a mp1.pollAOf mp2.pollAOf)
    | .PASSIVE_POLL_A, .ISO_DEP => some (mode_param_match_poll_a mp1.pollAOf mp2.pollAOf)
    | .PASSIVE_POLL_B, .ISO_DEP => some (mode_param_match_poll_b mp1.pollBOf mp2.pollBOf)
    | _, _ => none
  | _, _ => none

/-- `nci_adapter_info_mode_params_matches` (nci_adapter.c): mode-param
comparison, special-casing poll A on frame/ISO-DEP and poll B on ISO-DEP;
a full byte match of the raw mode params is expected in all other cases. -/
def nci_adapter_info_mode_params_matches (info : NciAdapterIntfInfo)
    (ntf : NciIntfActivationNtf) : Bool :=
  match nci_adapter_mode_params_special info ntf with
  | some r => r
  | none =>
    decide (info.mode_param.length = ntf.mode_param_bytes.length) &&
    (decide (ntf.mode_param_bytes.length = 0) ||
      memcmpN info.mode_param ntf.mode_param_bytes ntf.mode_param_bytes.length)

/-- `nci_adapter_intf_info_matches` (nci_adapter.c) for a non-NULL info:
same rf interface, protocol and mode, matching mode params, and identical
raw activation params. -/
def nci_adapter_intf_info_matches (info : NciAdapterIntfInfo)
    (ntf : NciIntfActivationNtf) : Bool :=
  decide (info.rf_intf = ntf.rf_intf) &&
  decide (info.protocol = ntf.protocol) &&
  decide (info.mode = ntf.mode) &&
  nci_adapter_info_mode_params_matches info ntf &&
  decide (info.activation_param.length = ntf.activation_param_bytes.length) &&
  (decide (ntf.activation_param_bytes.length = 0) ||
    memcmpN info.activation_param ntf.activation_param_bytes
      ntf.activation_param_bytes.length)

/-- `nci_adapter_intf_info_matches` including the C NULL check on `info`. -/
def intf_matches_opt : Option NciAdapterIntfInfo → NciIntfActivationNtf → Bool
  | none, _ => false
  | some info, ntf => nci_adapter_intf_info_matches info ntf

/-! ## The target data path (nci_target.c) -/

/-- The mutable data-path fields of `NciTarget` (nci_target.c):
`send_in_progress` is the opaque id of the outstanding `nci_core_send_data_msg`
(0 when idle), `transmit_in_progress` spans a user-visible transmit, and
`pending_reply` buffers a reply that arrived before send completion. -/
structure NciTargetSt where
  send_in_progress : Nat
  transmit_in_progress : Bool
  pending_reply : Option (List Nat)
deriving DecidableEq

/-- A transmit-finish strategy (`NciTargetTransmitFinishFunc`).
`some p` models "called `nfc_target_transmit_done(OK, p)` and returned TRUE";
`none` models "returned FALSE without delivering anything". -/
def NciTransmitFinishFn : Type := List Nat → Option (List Nat)

/-- `nci_target_transmit_finish_frame` (nci_target.c): the last byte of a
non-empty payload is the NCI status; anything other than
`STATUS_RF_FRAME_CORRUPTED` (including statuses that are neither `STATUS_OK`
nor `STATUS_OK_n_BIT`, which are merely logged) delivers the payload without
its status byte as a success. -/
def nci_target_transmit_finish_frame : NciTransmitFinishFn := fun payload =>
  if payload.length > 0 then
    let status := payload.getLastD 0
    if status ≠ NCI_STATUS_RF_FRAME_CORRUPTED then
      some (payload.take (payload.length - 1))
    else
      none
  else
    none

/-- `nci_target_transmit_finish_iso_dep` (nci_target.c): deliver verbatim. -/
def nci_target_transmit_finish_iso_dep : NciTransmitFinishFn := fun payload =>
  some payload

/-- `nci_target_transmit_finish_nfc_dep` (nci_target.c): deliver verbatim. -/
def nci_target_transmit_finish_nfc_dep : NciTransmitFinishFn := fun payload =>
  some payload

/-- The `nfc_target_transmit_done` call produced by
`nci_target_finish_transmit` for a given finish strategy and payload. -/
def nci_target_transmit_done_event (fin : NciTransmitFinishFn)
    (payload : List Nat) : NFC_TRANSMIT_STATUS × List Nat :=
  match fin payload with
  | some p => (.OK, p)
  | none => (.ERROR, [])

/-- `nci_target_finish_transmit` (nci_target.c): clear
`transmit_in_progress` and dispatch through the finish strategy, falling
back to `transmit_done(ERROR, empty)` when it refuses the payload. -/
def nci_target_finish_transmit (fin : NciTransmitFinishFn) (st : NciTargetSt)
    (payload : List Nat) : NciTargetSt × (NFC_TRANSMIT_STATUS × List Nat) :=
  ({ st with transmit_in_progress := false },
   nci_target_transmit_done_event fin payload)

/-- `nci_target_data_sent` (nci_target.c): the send-complete callback.
Clears `send_in_progress`; if a reply was buffered while the send was in
flight, finalizes the transmit with it now. -/
def nci_target_data_sent (fin : NciTransmitFinishFn) (st : NciTargetSt) :
    NciTargetSt × Option (NFC_TRANSMIT_STATUS × List Nat) :=
  match st.pending_reply with
  | some reply =>
    let r := nci_target_finish_transmit fin
      { st with send_in_progress := 0, pending_reply := none } reply
    (r.1, some r.2)
  | none => ({ st with send_in_progress := 0 }, none)

/-- `nci_target_data_packet_handler` (nci_target.c): an inbound data packet.
Only a packet on the static RF connection id with a transmit in flight and
no reply buffered yet is handled; it is buffered when the send-complete
callback has not fired yet, and finalizes the transmit otherwise. -/
def nci_target_data_packet_handler (fin : NciTransmitFinishFn)
    (st : NciTargetSt) (cid : Nat) (data : List Nat) :
    NciTargetSt × Option (NFC_TRANSMIT_STATUS × List Nat) :=
  if cid = NCI_STATIC_RF_CONN_ID ∧ st.transmit_in_progress = true ∧
      st.pending_reply = none then
    if st.send_in_progress ≠ 0 then
      ({ st with pending_reply := some data }, none)
    else
      let r := nci_target_finish_transmit fin st data
      (r.1, some r.2)
  else
    (st, none)

/-- `nci_target_cancel_send` (nci_target.c): cancel the outstanding send (if
any) and, only in that branch, drop a buffered reply. -/
def nci_target_cancel_send (st : NciTargetSt) : NciTargetSt :=
  if st.send_in_progress ≠ 0 then
    { st with send_in_progress := 0, pending_reply := none }
  else
    st

/-- `nci_target_cancel_transmit` (nci_target.c): clear
`transmit_in_progress`, then cancel the send. -/
def nci_target_cancel_transmit (st : NciTargetSt) : NciTargetSt :=
  nci_target_cancel_send { st with transmit_in_progress := false }

/-- `nci_target_transmit` (nci_target.c): issue
`nci_core_send_data_msg`; `sendId` is the id it returned (0 on failure, and
also when the adapter back-pointer is gone and no send was issued). Returns
whether the transmit was accepted. -/
def nci_target_transmit_step (st : NciTargetSt) (sendId : Nat) :
    NciTargetSt × Bool :=
  if sendId ≠ 0 then
    ({ st with send_in_progress := sendId, transmit_in_progress := true }, true)
  else
    ({ st with send_in_progress := 0 }, false)

/-- Reachable data-path states of a target, at the boundaries of the
operations nci_target.c exposes. The `transmit` step carries the
`GASSERT(!send_in_progress)` / `GASSERT(!transmit_in_progress)` framework
preconditions; `dataSent` fires only for an outstanding send
(`GASSERT(self->send_in_progress)`). -/
inductive TgtReachable : NciTargetSt → Prop where
  | init : TgtReachable ⟨0, false, none⟩
  | transmit {s : NciTargetSt} (sendId : Nat) : TgtReachable s →
      s.send_in_progress = 0 → s.transmit_in_progress = false →
      TgtReachable (nci_target_transmit_step s sendId).1
  | dataSent {s : NciTargetSt} (fin : NciTransmitFinishFn) : TgtReachable s →
      s.send_in_progress ≠ 0 →
      TgtReachable (nci_target_data_sent fin s).1
  | dataPacket {s : NciTargetSt} (fin : NciTransmitFinishFn) (cid : Nat)
      (data : List Nat) : TgtReachable s →
      TgtReachable (nci_target_data_packet_handler fin s cid data).1
  | cancelTransmit {s : NciTargetSt} : TgtReachable s →
      TgtReachable (nci_target_cancel_transmit s)
  | cancelSend {s : NciTargetSt} : TgtReachable s →
      TgtReachable (nci_target_cancel_send s)

/-! ## The adapter state machine (nci_adapter.c) -/

/-- Calls the adapter makes into NCI or up into the nfcd framework. -/
inductive AdapterOut where
  | setState (s : NCI_RF_STATE)
  | setTech (mask : Nat)
  | targetGone
  | initiatorGone
  | targetReactivated
  | initiatorReactivated
deriving DecidableEq

/-- The adapter fields (`NciAdapter`/`NciAdapterPriv`) driven by the
activation/deactivation/timeout/upper-layer events. `target` is the strongly
owned `self->target` (its data path lives in `NciTargetSt`); `initiator` is
`priv->initiator` carrying its `NfcInitiator::technology`; `host` is the
weak `priv->host` pointer (as a flag). The mode-management and weak
`tag`/`peer` fields play no part in the claims and are not modelled. -/
structure AdapterSt where
  internal_state : NCI_ADAPTER_STATE
  active_intf : Option NciAdapterIntfInfo
  target : Bool
  initiator : Option NFC_TECHNOLOGY
  host : Bool
  presence_check_timer : Option Nat
  ce_reactivation_timer : Option Nat
  active_techs : Nat
  active_tech_mask : Nat
deriving DecidableEq

/-- The adapter right after `nci_adapter_init` + `nci_adapter_init_base`:
IDLE, nothing active, no timers, `active_tech_mask = NCI_TECH_ALL` and
`active_techs` whatever `nci_core_get_tech` reported. -/
def nci_adapter_initial (techs : Nat) : AdapterSt :=
  { internal_state := .IDLE
    active_intf := none
    target := false
    initiator := none
    host := false
    presence_check_timer := none
    ce_reactivation_timer := none
    active_techs := techs
    active_tech_mask := NCI_TECH_ALL }

/-- `nci_adapter_drop_target` (nci_adapter.c): forget the target, free the
active interface info, stop the presence-check timer, notify `gone`. -/
def nci_adapter_drop_target (s : AdapterSt) : AdapterSt × List AdapterOut :=
  if s.target then
    ({ s with target := false, active_intf := none, presence_check_timer := none },
     [.targetGone])
  else
    (s, [])

/-- `nci_adapter_drop_initiator` (nci_adapter.c): forget the initiator,
restore `active_tech_mask` to `NCI_TECH_ALL`, free the active interface
info, stop the CE reactivation timer, clear the weak host, push
`active_techs` back to NCI, notify `gone`. -/
def nci_adapter_drop_initiator (s : AdapterSt) : AdapterSt × List AdapterOut :=
  match s.initiator with
  | some _ =>
    ({ s with
        initiator := none
        active_tech_mask := NCI_TECH_ALL
        active_intf := none
        ce_reactivation_timer := none
        host := false },
     [.setTech s.active_techs, .initiatorGone])
  | none => (s, [])

/-- `nci_adapter_drop_all` (nci_adapter.c). -/
def nci_adapter_drop_all (s : AdapterSt) : AdapterSt × List AdapterOut :=
  let r1 := nci_adapter_drop_target s
  let r2 := nci_adapter_drop_initiator r1.1
  (r2.1, r1.2 ++ r2.2)

/-- `nci_adapter_need_presence_checks` (nci_adapter.c): a target is present
and the active interface's protocol is not NFC-DEP (NFC-DEP liveness is
LLCP's job). -/
def nci_adapter_need_presence_checks (s : AdapterSt) : Bool :=
  s.target &&
    (match s.active_intf with
     | some intf => decide (intf.protocol ≠ NCI_PROTOCOL.NFC_DEP)
     | none => false)

/-! ### Object detection (nci_adapter.c lines 1115-1153, nci_target.c) -/

/-- The technology `nci_target_new` derives from the activation mode
(nci_target.c). -/
def nci_target_new_tech : NCI_MODE → NFC_TECHNOLOGY
  | .PASSIVE_POLL_A | .ACTIVE_POLL_A => .A
  | .PASSIVE_POLL_B => .B
  | .PASSIVE_POLL_F | .ACTIVE_POLL_F => .F
  | _ => .UNKNOWN

/-- The nfcd protocol `nci_target_new` derives from the NCI protocol and the
technology (nci_target.c). -/
def nci_target_new_protocol (p : NCI_PROTOCOL) (tech : NFC_TECHNOLOGY) :
    NFC_PROTOCOL :=
  match p with
  | .T1T => .T1_TAG
  | .T2T => .T2_TAG
  | .T3T => .T3_TAG
  | .ISO_DEP =>
    match tech with
    | .A => .T4A_TAG
    | .B => .T4B_TAG
    | _ => .UNKNOWN
  | .NFC_DEP => .NFC_DEP
  | _ => .UNKNOWN

/-- Whether `nci_target_new` (nci_target.c) picks a transmit-finish strategy
for this interface/protocol pair (frame is refused for ISO-DEP and NFC-DEP
protocols; NFCEE-direct and proprietary interfaces are unsupported). -/
def nci_target_new_has_finish (rf : NCI_RF_INTERFACE) (p : NCI_PROTOCOL) : Bool :=
  match rf with
  | .FRAME =>
    match p with
    | .NFC_DEP => false
    | .ISO_DEP => false
    | _ => true
  | .ISO_DEP => true
  | .NFC_DEP => true
  | _ => false

/-- `nci_target_new` (nci_target.c) succeeds: known technology, known
protocol, and a transmit-finish strategy exists. -/
def nci_target_new_ok (ntf : NciIntfActivationNtf) : Bool :=
  let tech := nci_target_new_tech ntf.mode
  decide (tech ≠ NFC_TECHNOLOGY.UNKNOWN) &&
  decide (nci_target_new_protocol ntf.protocol tech ≠ NFC_PROTOCOL.UNKNOWN) &&
  nci_target_new_has_finish ntf.rf_intf ntf.protocol

/-- Results of the nfcd framework factory calls made during object
detection. The factories live in nfcd, outside this repository, so whether
each returns an object is an external choice. -/
structure DetectOracle where
  peerInitiatorFactory : Bool
  initiatorNew : Bool
  peerTargetFactory : Bool
  hostFactory : Bool
deriving DecidableEq

/-- `nci_adapter_create_peer_initiator` (nci_adapter.c) returns a peer:
the dispatch requires protocol NFC-DEP, interface NFC-DEP and a poll A/F
mode; the framework factory result is the oracle. -/
def peer_initiator_created (ntf : NciIntfActivationNtf) (o : DetectOracle) : Bool :=
  decide (ntf.protocol = NCI_PROTOCOL.NFC_DEP) &&
  decide (ntf.rf_intf = NCI_RF_INTERFACE.NFC_DEP) &&
  (match ntf.mode with
   | .ACTIVE_POLL_A | .PASSIVE_POLL_A | .ACTIVE_POLL_F | .PASSIVE_POLL_F => true
   | _ => false) &&
  o.peerInitiatorFactory

/-- `nci_adapter_create_peer_target` (nci_adapter.c) returns a peer: the
dispatch requires interface NFC-DEP and a listen A/F mode. -/
def peer_target_created (ntf : NciIntfActivationNtf) (o : DetectOracle) : Bool :=
  decide (ntf.rf_intf = NCI_RF_INTERFACE.NFC_DEP) &&
  (match ntf.mode with
   | .ACTIVE_LISTEN_A | .PASSIVE_LISTEN_A | .PASSIVE_LISTEN_F | .ACTIVE_LISTEN_F => true
   | _ => false) &&
  o.peerTargetFactory

/-- `nci_adapter_create_host` (nci_adapter.c) returns a host: the dispatch
requires interface ISO-DEP. -/
def host_created (ntf : NciIntfActivationNtf) (o : DetectOracle) : Bool :=
  decide (ntf.rf_intf = NCI_RF_INTERFACE.ISO_DEP) && o.hostFactory

/-- Modelled from the spec: `nci_initiator_new` (the listen-side counterpart
of `nci_target_new`, a source file of this repository not provided here)
creates the framework initiator object for a listen-side activation. Its
success and the technology it assigns are taken as external choices; the
technology mapping (listen-A to A, listen-B to B, listen-F to F) follows the
spec's object-detector and CE-tech-locking description. -/
def nci_initiator_new_tech : NCI_MODE → NFC_TECHNOLOGY
  | .PASSIVE_LISTEN_A | .ACTIVE_LISTEN_A => .A
  | .PASSIVE_LISTEN_B => .B
  | .PASSIVE_LISTEN_F | .ACTIVE_LISTEN_F => .F
  | _ => .UNKNOWN

/-- The object-detection block of `nci_adapter_activation` (nci_adapter.c):
runs only when neither a target nor an initiator is held. A successful
`nci_target_new` switches to HAVE_TARGET; a peer-initiator leaves
`active_intf` alone, any other target stores a fresh interface info.
Otherwise an initiator is tried and kept only if it can be tied to a peer
target or a card-emulation host. -/
def nci_adapter_object_detection (s : AdapterSt) (ntf : NciIntfActivationNtf)
    (o : DetectOracle) : AdapterSt :=
  if s.target = false ∧ s.initiator = none then
    if nci_target_new_ok ntf then
      let s1 := { s with target := true, internal_state := .HAVE_TARGET }
      if peer_initiator_created ntf o then
        s1
      else
        { s1 with active_intf := some (nci_adapter_intf_info_new ntf) }
    else if o.initiatorNew then
      if peer_target_created ntf o then
        { s with
            initiator := some (nci_initiator_new_tech ntf.mode)
            active_intf := some (nci_adapter_intf_info_new ntf)
            internal_state := .HAVE_INITIATOR }
      else if host_created ntf o then
        { s with
            initiator := some (nci_initiator_new_tech ntf.mode)
            host := true
            active_intf := some (nci_adapter_intf_info_new ntf)
            internal_state := .HAVE_INITIATOR }
      else
        s
    else
      s
  else
    s

/-- The state-update part of `nci_adapter_activation` (nci_adapter.c lines
1056-1113): reconcile the internal state with the fresh activation,
dropping a stale object when the interface info does not match. -/
def nci_adapter_activation_sm (s : AdapterSt) (ntf : NciIntfActivationNtf) :
    AdapterSt × List AdapterOut :=
  match s.internal_state with
  | .IDLE => (s, [])
  | .HAVE_TARGET =>
    nci_adapter_drop_target { s with internal_state := .IDLE }
  | .HAVE_INITIATOR =>
    if intf_matches_opt s.active_intf ntf then
      if s.host then
        ({ s with internal_state := .REACTIVATED_CE }, [.initiatorReactivated])
      else
        (s, [])
    else
      nci_adapter_drop_initiator { s with internal_state := .IDLE }
  | .REACTIVATING_CE =>
    if intf_matches_opt s.active_intf ntf then
      ({ s with internal_state := .REACTIVATED_CE }, [.initiatorReactivated])
    else
      nci_adapter_drop_initiator { s with internal_state := .IDLE }
  | .REACTIVATED_CE =>
    if intf_matches_opt s.active_intf ntf then
      ({ s with internal_state := .REACTIVATED_CE }, [.initiatorReactivated])
    else
      nci_adapter_drop_initiator { s with internal_state := .IDLE }
  | .REACTIVATING_TARGET =>
    if intf_matches_opt s.active_intf ntf then
      ({ s with internal_state := .HAVE_TARGET }, [.targetReactivated])
    else
      nci_adapter_drop_target { s with internal_state := .IDLE }

/-- The presence-check timer state after the final block of
`nci_adapter_activation`: armed with the 250 ms period exactly when presence
checks are needed ("arm if not already armed" always leaves the same
period). -/
def presence_timer_of (s : AdapterSt) : Option Nat :=
  if nci_adapter_need_presence_checks s = true then some PRESENCE_CHECK_PERIOD_MS
  else none

/-- `nci_adapter_activation` (nci_adapter.c): stop the CE reactivation
timer, update the state machine, run object detection, then start or stop
the periodic presence checks; if the activation produced nothing, command
NCI back to RFST_IDLE. -/
def nci_adapter_activation_step (s : AdapterSt) (ntf : NciIntfActivationNtf)
    (o : DetectOracle) : AdapterSt × List AdapterOut :=
  let s0 := { s with ce_reactivation_timer := none }
  let r1 := nci_adapter_activation_sm s0 ntf
  let s2 := nci_adapter_object_detection r1.1 ntf o
  let s3 := { s2 with presence_check_timer := presence_timer_of s2 }
  let o3 := if s2.target = false ∧ s2.initiator = none then
    [AdapterOut.setState .RFST_IDLE] else []
  (s3, r1.2 ++ o3)

/-- `nci_adapter_deactivation` (nci_adapter.c): the RF link dropped. In the
reactivation states nothing happens; a reactivated CE host goes back to
REACTIVATING_CE; from HAVE_INITIATOR with a host, card emulation is kept
alive by arming the CE timer and locking the listen technology; everything
else returns to IDLE dropping all objects. -/
def nci_adapter_deactivation_step (s : AdapterSt) : AdapterSt × List AdapterOut :=
  match s.internal_state with
  | .REACTIVATING_TARGET => (s, [])
  | .REACTIVATING_CE => (s, [])
  | .REACTIVATED_CE =>
    ({ s with
        internal_state := .REACTIVATING_CE
        ce_reactivation_timer := some CE_REACTIVATION_TIMEOUT_MS }, [])
  | .HAVE_INITIATOR =>
    if s.host then
      let ce_tech : Nat :=
        match s.initiator with
        | some .A => NCI_TECH_A_LISTEN
        | some .B => NCI_TECH_B_LISTEN
        | _ => NCI_TECH_NONE
      let s1 := { s with
        internal_state := .REACTIVATING_CE
        ce_reactivation_timer := some CE_REACTIVATION_TIMEOUT_MS }
      if ce_tech ≠ 0 then
        ({ s1 with active_tech_mask := ce_tech },
         [.setTech (Nat.land s.active_techs ce_tech)])
      else
        (s1, [])
    else
      nci_adapter_drop_all { s with internal_state := .IDLE }
  | .IDLE =>
    nci_adapter_drop_all { s with internal_state := .IDLE }
  | .HAVE_TARGET =>
    nci_adapter_drop_all { s with internal_state := .IDLE }

/-- `nci_adapter_ce_reactivation_timeout` (nci_adapter.c): the 1.5 s CE
window expired with no matching activation; back to IDLE, dropping all. -/
def nci_adapter_ce_timeout_step (s : AdapterSt) : AdapterSt × List AdapterOut :=
  nci_adapter_drop_all
    { s with ce_reactivation_timer := none, internal_state := .IDLE }

/-- `nci_adapter_reactivate` (nci_adapter.c). `sameTarget` is
`self->target == target && target` for the upper layer's argument; `cur` and
`next` are NCI's current and next RF states. On success: switch to
REACTIVATING_TARGET, stop presence checks, command NCI to DISCOVERY.
Otherwise only a warning is logged. -/
def nci_adapter_reactivate_step (s : AdapterSt) (sameTarget : Bool)
    (cur next : NCI_RF_STATE) : Bool × AdapterSt × List AdapterOut :=
  if sameTarget = true ∧ s.target = true ∧ s.active_intf.isSome = true ∧
      s.internal_state = .HAVE_TARGET ∧
      ((cur = .RFST_POLL_ACTIVE ∧ next = .RFST_POLL_ACTIVE) ∨
       (cur = .RFST_LISTEN_ACTIVE ∧ next = .RFST_LISTEN_ACTIVE)) then
    (true,
     { s with
        internal_state := .REACTIVATING_TARGET
        presence_check_timer := none },
     [.setState .RFST_DISCOVERY])
  else
    (false, s, [])

/-- `nci_adapter_deactivate_target` (nci_adapter.c), called by the upper
layer (or on a failed presence check) with the adapter's current target:
drop it and, if powered, command NCI to DISCOVERY. -/
def nci_adapter_deactivate_target_step (s : AdapterSt) (powered : Bool) :
    AdapterSt × List AdapterOut :=
  if s.target then
    let r1 := nci_adapter_drop_target s
    (r1.1, r1.2 ++ if powered then [.setState .RFST_DISCOVERY] else [])
  else
    (s, [])

/-- `nci_adapter_deactivate_initiator` (nci_adapter.c), called by the upper
layer with the adapter's current initiator. -/
def nci_adapter_deactivate_initiator_step (s : AdapterSt) (powered : Bool) :
    AdapterSt × List AdapterOut :=
  if s.initiator.isSome then
    let r1 := nci_adapter_drop_initiator s
    (r1.1, r1.2 ++ if powered then [.setState .RFST_DISCOVERY] else [])
  else
    (s, [])

/-- `nci_adapter_next_state_changed`, default branch (nci_adapter.c): NCI
moved to an error state; back to IDLE dropping everything. -/
def nci_adapter_rf_error_step (s : AdapterSt) : AdapterSt × List AdapterOut :=
  nci_adapter_drop_all { s with internal_state := .IDLE }

/-- `nci_adapter_presence_check_timer` (nci_adapter.c): one tick of the
250 ms presence-check timer. When a probe is already in flight, the target's
sequence forbids presence checks, or the probe starts, none of the modelled
fields change and the timer keeps running (`G_SOURCE_CONTINUE`). When the
probe cannot be started — `nci_target_presence_check` returned 0 because the
target has no presence-check strategy (protocols other than T2T/ISO-DEP) or
the framework transmit failed — the timer is stopped and NCI is commanded to
DISCOVERY (`G_SOURCE_REMOVE`). `probeStarted` summarizes those
externally-determined outcomes. -/
def nci_adapter_presence_tick_step (s : AdapterSt) (probeStarted : Bool) :
    AdapterSt × List AdapterOut :=
  if probeStarted then
    (s, [])
  else
    ({ s with presence_check_timer := none }, [.setState .RFST_DISCOVERY])

/-- Adapter states reachable from initialization through the events the
adapter handles: interface activations (with the framework factory results
as external choices), deactivations, the CE reactivation timeout and the
presence-check timer tick (each firing only while its timer is armed), NCI
error states, the weak host pointer clearing when the framework destroys the
host, and the upper-layer reactivate / deactivate operations. -/
inductive AdapterReachable : AdapterSt → Prop where
  | init (techs : Nat) : AdapterReachable (nci_adapter_initial techs)
  | activation {s : AdapterSt} (ntf : NciIntfActivationNtf) (o : DetectOracle) :
      AdapterReachable s →
      AdapterReachable (nci_adapter_activation_step s ntf o).1
  | deactivation {s : AdapterSt} : AdapterReachable s →
      AdapterReachable (nci_adapter_deactivation_step s).1
  | ceTimeout {s : AdapterSt} : AdapterReachable s →
      s.ce_reactivation_timer.isSome = true →
      AdapterReachable (nci_adapter_ce_timeout_step s).1
  | reactivate {s : AdapterSt} (sameTarget : Bool) (cur next : NCI_RF_STATE) :
      AdapterReachable s →
      AdapterReachable (nci_adapter_reactivate_step s sameTarget cur next).2.1
  | deactivateTarget {s : AdapterSt} (powered : Bool) : AdapterReachable s →
      AdapterReachable (nci_adapter_deactivate_target_step s powered).1
  | deactivateInitiator {s : AdapterSt} (powered : Bool) : AdapterReachable s →
      AdapterReachable (nci_adapter_deactivate_initiator_step s powered).1
  | rfError {s : AdapterSt} : AdapterReachable s →
      AdapterReachable (nci_adapter_rf_error_step s).1
  | presenceTick {s : AdapterSt} (probeStarted : Bool) : AdapterReachable s →
      s.presence_check_timer.isSome = true →
      AdapterReachable (nci_adapter_presence_tick_step s probeStarted).1
  | hostGone {s : AdapterSt} : AdapterReachable s →
      AdapterReachable { s with host := false }

/-! ## Adapter invariants -/

/-- Structural invariant tying the owned objects, the interface info and the
internal state together: target and initiator are mutually exclusive, an
active interface info belongs to one of them, IDLE holds no interface info,
and the listen-side (resp. poll-side) states hold no target (resp.
initiator). -/
def AdapterCoreInv (s : AdapterSt) : Prop :=
  (s.target = false ∨ s.initiator = none) ∧
  (s.active_intf.isSome = true → s.target = true ∨ s.initiator.isSome = true) ∧
  (s.internal_state = .IDLE → s.active_intf = none) ∧
  ((s.internal_state = .HAVE_INITIATOR ∨ s.internal_state = .REACTIVATING_CE ∨
      s.internal_state = .REACTIVATED_CE) → s.target = false) ∧
  ((s.internal_state = .HAVE_TARGET ∨ s.internal_state = .REACTIVATING_TARGET) →
      s.initiator = none)

/-- An armed presence-check timer implies that presence checks are needed
and that no target reactivation is in flight. (Only this direction is
invariant: a successful reactivate and the tick's failed-probe-start branch
both stop the timer while the target persists.) -/
def AdapterPresenceInv (s : AdapterSt) : Prop :=
  s.presence_check_timer.isSome = true →
    (nci_adapter_need_presence_checks s = true ∧
     s.internal_state ≠ NCI_ADAPTER_STATE.REACTIVATING_TARGET)

/-- The adapter invariant maintained by every event. -/
def AdapterInv (s : AdapterSt) : Prop := AdapterCoreInv s ∧ AdapterPresenceInv s

theorem core_activation_sm (s : AdapterSt) (ntf : NciIntfActivationNtf)
    (h : AdapterCoreInv s) :
    AdapterCoreInv (nci_adapter_activation_sm s ntf).1 ∧
    (nci_adapter_activation_sm s ntf).1.internal_state ≠ .REACTIVATING_TARGET := by
  obtain ⟨h1, h2, h3, h4, h5⟩ := h
  unfold nci_adapter_activation_sm nci_adapter_drop_target nci_adapter_drop_initiator
  unfold AdapterCoreInv
  split <;> (try split) <;> (try split) <;> simp_all

theorem core_detection (s : AdapterSt) (ntf : NciIntfActivationNtf)
    (o : DetectOracle) (h : AdapterCoreInv s)
    (hrt : s.internal_state ≠ .REACTIVATING_TARGET) :
    AdapterCoreInv (nci_adapter_object_detection s ntf o) ∧
    (nci_adapter_object_detection s ntf o).internal_state ≠ .REACTIVATING_TARGET := by
  obtain ⟨h1, h2, h3, h4, h5⟩ := h
  unfold nci_adapter_object_detection AdapterCoreInv
  split <;> (try split) <;> (try split) <;> (try split) <;> (try split) <;> simp_all

theorem presence_restore (s2 : AdapterSt)
    (hrt : s2.internal_state ≠ NCI_ADAPTER_STATE.REACTIVATING_TARGET) :
    AdapterPresenceInv { s2 with presence_check_timer := presence_timer_of s2 } := by
  unfold AdapterPresenceInv
  intro harm
  have harm2 : (presence_timer_of s2).isSome = true := harm
  have hneed : nci_adapter_need_presence_checks s2 = true := by
    by_contra hn
    unfold presence_timer_of at harm2
    rw [if_neg hn] at harm2
    simp at harm2
  exact ⟨hneed, hrt⟩

theorem core_ignores_timer (s : AdapterSt) (t : Option Nat)
    (h : AdapterCoreInv s) : AdapterCoreInv { s with presence_check_timer := t } := by
  obtain ⟨h1, h2, h3, h4, h5⟩ := h
  exact ⟨h1, h2, h3, h4, h5⟩

theorem inv_activation (s : AdapterSt) (ntf : NciIntfActivationNtf)
    (o : DetectOracle) (h : AdapterInv s) :
    AdapterInv (nci_adapter_activation_step s ntf o).1 := by
  obtain ⟨hc, hp⟩ := h
  have hc0 : AdapterCoreInv { s with ce_reactivation_timer := none } := by
    obtain ⟨h1, h2, h3, h4, h5⟩ := hc
    exact ⟨h1, h2, h3, h4, h5⟩
  have hsm := core_activation_sm { s with ce_reactivation_timer := none } ntf hc0
  have hdet := core_detection
    (nci_adapter_activation_sm { s with ce_reactivation_timer := none } ntf).1 ntf o
    hsm.1 hsm.2
  exact ⟨core_ignores_timer _ _ hdet.1, presence_restore _ hdet.2⟩

theorem inv_deactivation (s : AdapterSt) (h : AdapterInv s) :
    AdapterInv (nci_adapter_deactivation_step s).1 := by
  obtain ⟨⟨h1, h2, h3, h4, h5⟩, hp⟩ := h
  unfold AdapterInv AdapterCoreInv AdapterPresenceInv
    nci_adapter_deactivation_step nci_adapter_drop_all
    nci_adapter_drop_target nci_adapter_drop_initiator
    nci_adapter_need_presence_checks at *
  split <;> (try split) <;> (try split) <;> (try split) <;>
    (try simp_all [NCI_TECH_A_LISTEN, NCI_TECH_B_LISTEN, NCI_TECH_NONE]) <;>
    (try cases hI : s.initiator) <;>
    simp_all [NCI_TECH_A_LISTEN, NCI_TECH_B_LISTEN, NCI_TECH_NONE]

theorem inv_ce_timeout (s : AdapterSt) (h : AdapterInv s) :
    AdapterInv (nci_adapter_ce_timeout_step s).1 := by
  obtain ⟨⟨h1, h2, h3, h4, h5⟩, hp⟩ := h
  unfold AdapterInv AdapterCoreInv AdapterPresenceInv
    nci_adapter_ce_timeout_step nci_adapter_drop_all
    nci_adapter_drop_target nci_adapter_drop_initiator
    nci_adapter_need_presence_checks at *
  split <;> (try split) <;> (try simp_all) <;>
    (try cases hI : s.initiator) <;> simp_all

theorem inv_rf_error (s : AdapterSt) (h : AdapterInv s) :
    AdapterInv (nci_adapter_rf_error_step s).1 := by
  obtain ⟨⟨h1, h2, h3, h4, h5⟩, hp⟩ := h
  unfold AdapterInv AdapterCoreInv AdapterPresenceInv
    nci_adapter_rf_error_step nci_adapter_drop_all
    nci_adapter_drop_target nci_adapter_drop_initiator
    nci_adapter_need_presence_checks at *
  split <;> (try split) <;> (try simp_all) <;>
    (try cases hI : s.initiator) <;> simp_all

theorem inv_reactivate (s : AdapterSt) (sameTarget : Bool) (cur next : NCI_RF_STATE)
    (h : AdapterInv s) :
    AdapterInv (nci_adapter_reactivate_step s sameTarget cur next).2.1 := by
  obtain ⟨⟨h1, h2, h3, h4, h5⟩, hp⟩ := h
  unfold AdapterInv AdapterCoreInv AdapterPresenceInv
    nci_adapter_reactivate_step nci_adapter_need_presence_checks at *
  split <;> simp_all

theorem inv_deactivate_target (s : AdapterSt) (powered : Bool) (h : AdapterInv s) :
    AdapterInv (nci_adapter_deactivate_target_step s powered).1 := by
  obtain ⟨⟨h1, h2, h3, h4, h5⟩, hp⟩ := h
  unfold AdapterInv AdapterCoreInv AdapterPresenceInv
    nci_adapter_deactivate_target_step nci_adapter_drop_target
    nci_adapter_need_presence_checks at *
  split <;> (try split) <;> simp_all

theorem inv_deactivate_initiator (s : AdapterSt) (powered : Bool) (h : AdapterInv s) :
    AdapterInv (nci_adapter_deactivate_initiator_step s powered).1 := by
  obtain ⟨⟨h1, h2, h3, h4, h5⟩, hp⟩ := h
  unfold AdapterInv AdapterCoreInv AdapterPresenceInv
    nci_adapter_deactivate_initiator_step nci_adapter_drop_initiator
    nci_adapter_need_presence_checks at *
  split <;> (try split) <;> simp_all

theorem inv_presence_tick (s : AdapterSt) (probeStarted : Bool)
    (h : AdapterInv s) :
    AdapterInv (nci_adapter_presence_tick_step s probeStarted).1 := by
  obtain ⟨⟨h1, h2, h3, h4, h5⟩, hp⟩ := h
  unfold AdapterInv AdapterCoreInv AdapterPresenceInv
    nci_adapter_presence_tick_step nci_adapter_need_presence_checks at *
  split <;> simp_all

theorem inv_host_gone (s : AdapterSt) (h : AdapterInv s) :
    AdapterInv { s with host := false } := by
  obtain ⟨⟨h1, h2, h3, h4, h5⟩, hp⟩ := h
  unfold AdapterInv AdapterCoreInv AdapterPresenceInv
    nci_adapter_need_presence_checks at *
  simp_all

theorem inv_initial (techs : Nat) : AdapterInv (nci_adapter_initial techs) := by
  unfold AdapterInv AdapterCoreInv AdapterPresenceInv nci_adapter_initial
    nci_adapter_need_presence_checks
  simp

/-- Every reachable adapter state satisfies the invariant. -/
theorem adapter_inv (s : AdapterSt) (h : AdapterReachable s) : AdapterInv s := by
  induction h with
  | init techs => exact inv_initial techs
  | activation ntf o _ ih => exact inv_activation _ ntf o ih
  | deactivation _ ih => exact inv_deactivation _ ih
  | ceTimeout _ _ ih => exact inv_ce_timeout _ ih
  | reactivate sameTarget cur next _ ih => exact inv_reactivate _ sameTarget cur next ih
  | deactivateTarget powered _ ih => exact inv_deactivate_target _ powered ih
  | deactivateInitiator powered _ ih => exact inv_deactivate_initiator _ powered ih
  | rfError _ ih => exact inv_rf_error _ ih
  | presenceTick probeStarted _ _ ih => exact inv_presence_tick _ probeStarted ih
  | hostGone _ ih => exact inv_host_gone _ ih

/-! ## Shared helper lemmas for the claims -/

theorem match_poll_a_iff (pa1 pa2 : NciModeParamPollA)
    (hw1 : pa1.nfcid1.length = pa1.nfcid1_len)
    (hw2 : pa2.nfcid1.length = pa2.nfcid1_len) :
    mode_param_match_poll_a pa1 pa2 = true ↔
      (pa1.sel_res = pa2.sel_res ∧ pa1.sel_res_len = pa2.sel_res_len ∧
       pa1.nfcid1_len = pa2.nfcid1_len ∧ pa1.sens_res = pa2.sens_res ∧
       ((pa1.nfcid1_len = 4 ∧ pa1.nfcid1.getD 0 0 = 0x08 ∧
         pa2.nfcid1.getD 0 0 = 0x08) ∨
        pa1.nfcid1 = pa2.nfcid1)) := by
  by_cases h1 : pa1.sel_res = pa2.sel_res ∧ pa1.sel_res_len = pa2.sel_res_len ∧
      pa1.nfcid1_len = pa2.nfcid1_len ∧ pa1.sens_res = pa2.sens_res
  case neg =>
    have hLHS : mode_param_match_poll_a pa1 pa2 = false := by
      unfold mode_param_match_poll_a
      rw [if_neg h1]
    rw [hLHS]
    simp only [Bool.false_eq_true, false_iff]
    tauto
  case pos =>
    obtain ⟨e1, e2, e3, e4⟩ := h1
    have hA : pa1.nfcid1.take pa2.nfcid1_len = pa1.nfcid1 := by
      rw [← e3, ← hw1]
      exact List.take_length _
    have hB : pa2.nfcid1.take pa2.nfcid1_len = pa2.nfcid1 := by
      rw [← hw2]
      exact List.take_length _
    by_cases h2 : pa1.nfcid1_len = RANDOM_UID_SIZE ∧
        pa1.nfcid1.getD 0 0 = pa2.nfcid1.getD 0 0 ∧
        pa2.nfcid1.getD 0 0 = RANDOM_UID_START_BYTE
    case pos =>
      have hLHS : mode_param_match_poll_a pa1 pa2 = true := by
        unfold mode_param_match_poll_a
        rw [if_pos ⟨e1, e2, e3, e4⟩, if_pos h2]
      rw [hLHS]
      simp only [true_iff]
      refine ⟨e1, e2, e3, e4, Or.inl ?_⟩
      obtain ⟨f1, f2, f3⟩ := h2
      exact ⟨f1, f2.trans f3, f3⟩
    case neg =>
      have hLHS : mode_param_match_poll_a pa1 pa2 =
          memcmpN pa1.nfcid1 pa2.nfcid1 pa2.nfcid1_len := by
        unfold mode_param_match_poll_a
        rw [if_pos ⟨e1, e2, e3, e4⟩, if_neg h2]
      rw [hLHS]
      unfold memcmpN
      rw [hA, hB]
      simp only [decide_eq_true_eq]
      constructor
      · intro he
        exact ⟨e1, e2, e3, e4, Or.inr he⟩
      · rintro ⟨-, -, -, -, hr | he⟩
        · exact absurd ⟨hr.1, by rw [hr.2.1, hr.2.2], hr.2.2⟩ h2
        · exact he

theorem match_poll_b_iff (pb1 pb2 : NciModeParamPollB) :
    mode_param_match_poll_b pb1 pb2 = true ↔
      (pb1.fsc = pb2.fsc ∧ pb1.app_data = pb2.app_data ∧
       pb1.prot_info = pb2.prot_info) := by
  unfold mode_param_match_poll_b
  constructor
  · intro h
    simp only [Bool.and_eq_true, decide_eq_true_eq] at h
    exact ⟨h.1.1.1, h.1.1.2, h.2⟩
  · rintro ⟨h1, h2, h3⟩
    simp [h1, h2, h3]

/-- The buffered-reply invariant of the target data path: a reply can only
be buffered while the send that provoked it is outstanding and the transmit
is still in flight. -/
theorem tgt_pending_inv (s : NciTargetSt) (h : TgtReachable s) :
    s.pending_reply ≠ none →
      s.send_in_progress ≠ 0 ∧ s.transmit_in_progress = true := by
  induction h with
  | init => simp
  | transmit sendId _ hs _ ih =>
    unfold nci_target_transmit_step
    split <;> simp_all
  | dataSent fin _ hs ih =>
    unfold nci_target_data_sent nci_target_finish_transmit
    dsimp only
    split <;> simp_all
  | dataPacket fin cid data _ ih =>
    unfold nci_target_data_packet_handler nci_target_finish_transmit
    split <;> (try split) <;> simp_all
  | cancelTransmit _ ih =>
    unfold nci_target_cancel_transmit nci_target_cancel_send
    split <;> simp_all
  | cancelSend _ ih =>
    unfold nci_target_cancel_send
    split <;> simp_all

/-! ## Claims -/

/-- C1: for a stored interface info and a fresh activation notification that
agree on rf interface, protocol and mode, with mode PASSIVE_POLL_A, rf
interface FRAME or ISO_DEP, equal raw activation-parameter bytes, and both
sides carrying parsed Poll-A mode parameters, the match predicate returns
true iff `sel_res`, `sel_res_len`, `nfcid1_len` and `sens_res` are equal and
either (`nfcid1_len = 4` and the first NFCID1 byte of both sides is `0x08`,
regardless of the remaining bytes) or the NFCID1 arrays are byte-for-byte
equal. -/
theorem c1_poll_a_match
    (info : NciAdapterIntfInfo) (ntf : NciIntfActivationNtf)
    (pa1 pa2 : NciModeParamPollA)
    (hrf : info.rf_intf = ntf.rf_intf)
    (hpr : info.protocol = ntf.protocol)
    (hmd : info.mode = ntf.mode)
    (hmode : ntf.mode = NCI_MODE.PASSIVE_POLL_A)
    (hintf : ntf.rf_intf = NCI_RF_INTERFACE.FRAME ∨
      ntf.rf_intf = NCI_RF_INTERFACE.ISO_DEP)
    (hact : info.activation_param = ntf.activation_param_bytes)
    (hp1 : info.mode_param_parsed = some (NciModeParam.poll_a pa1))
    (hp2 : ntf.mode_param = some (NciModeParam.poll_a pa2))
    (hw1 : pa1.nfcid1.length = pa1.nfcid1_len)
    (hw2 : pa2.nfcid1.length = pa2.nfcid1_len) :
    nci_adapter_intf_info_matches info ntf = true ↔
      (pa1.sel_res = pa2.sel_res ∧ pa1.sel_res_len = pa2.sel_res_len ∧
       pa1.nfcid1_len = pa2.nfcid1_len ∧ pa1.sens_res = pa2.sens_res ∧
       ((pa1.nfcid1_len = 4 ∧ pa1.nfcid1.getD 0 0 = 0x08 ∧
         pa2.nfcid1.getD 0 0 = 0x08) ∨
        pa1.nfcid1 = pa2.nfcid1)) := by
  have hsp : nci_adapter_mode_params_special info ntf =
      some (mode_param_match_poll_a pa1 pa2) := by
    unfold nci_adapter_mode_params_special
    rw [hp1, hp2, hmode]
    rcases hintf with h | h <;> rw [h] <;> rfl
  have hm : nci_adapter_info_mode_params_matches info ntf =
      mode_param_match_poll_a pa1 pa2 := by
    unfold nci_adapter_info_mode_params_matches
    rw [hsp]
  unfold nci_adapter_intf_info_matches
  rw [hm, hrf, hpr, hmd, hact]
  simp [memcmpN, match_poll_a_iff pa1 pa2 hw1 hw2]

/-- A stored info and a fresh notification for the same random-NFCID1
(first byte 08h, length 4) Type-2 tag, with different remaining NFCID1
bytes. -/
def c1W_pa1 : NciModeParamPollA := ⟨(0x44, 0x00), 4, [0x08, 0x01, 0x02, 0x03], 1, 0x00⟩

def c1W_pa2 : NciModeParamPollA := ⟨(0x44, 0x00), 4, [0x08, 0x09, 0x0a, 0x0b], 1, 0x00⟩

def c1W_info : NciAdapterIntfInfo :=
  { rf_intf := .FRAME
    protocol := .T2T
    mode := .PASSIVE_POLL_A
    mode_param := [0x44, 0x00, 0x04]
    activation_param := []
    mode_param_parsed := some (.poll_a c1W_pa1) }

def c1W_ntf : NciIntfActivationNtf :=
  { rf_intf := .FRAME
    protocol := .T2T
    mode := .PASSIVE_POLL_A
    mode_param_bytes := [0x44, 0x00, 0x05]
    mode_param := some (.poll_a c1W_pa2)
    activation_param_bytes := [] }

theorem c1_poll_a_match_witness :
    nci_adapter_intf_info_matches c1W_info c1W_ntf = true :=
  (c1_poll_a_match c1W_info c1W_ntf c1W_pa1 c1W_pa2 rfl rfl rfl rfl
    (Or.inl rfl) rfl rfl rfl (by decide) (by decide)).mpr (by decide)

/-- C2: for a stored interface info and a fresh activation notification that
agree on rf interface, protocol and mode, with mode PASSIVE_POLL_B, rf
interface ISO_DEP, equal raw activation-parameter bytes, and both sides
carrying parsed Poll-B mode parameters, the match predicate returns true iff
`fsc`, `app_data` and `prot_info` (whose equality includes its length) are
equal; the `nfcid0` UID plays no part, so changing it alone still
matches. -/
theorem c2_poll_b_match
    (info : NciAdapterIntfInfo) (ntf : NciIntfActivationNtf)
    (pb1 pb2 : NciModeParamPollB)
    (hrf : info.rf_intf = ntf.rf_intf)
    (hpr : info.protocol = ntf.protocol)
    (hmd : info.mode = ntf.mode)
    (hmode : ntf.mode = NCI_MODE.PASSIVE_POLL_B)
    (hintf : ntf.rf_intf = NCI_RF_INTERFACE.ISO_DEP)
    (hact : info.activation_param = ntf.activation_param_bytes)
    (hp1 : info.mode_param_parsed = some (NciModeParam.poll_b pb1))
    (hp2 : ntf.mode_param = some (NciModeParam.poll_b pb2)) :
    nci_adapter_intf_info_matches info ntf = true ↔
      (pb1.fsc = pb2.fsc ∧ pb1.app_data = pb2.app_data ∧
       pb1.prot_info = pb2.prot_info) := by
  have hsp : nci_adapter_mode_params_special info ntf =
      some (mode_param_match_poll_b pb1 pb2) := by
    unfold nci_adapter_mode_params_special
    rw [hp1, hp2, hmode, hintf]
    rfl
  have hm : nci_adapter_info_mode_params_matches info ntf =
      mode_param_match_poll_b pb1 pb2 := by
    unfold nci_adapter_info_mode_params_matches
    rw [hsp]
  unfold nci_adapter_intf_info_matches
  rw [hm, hrf, hpr, hmd, hact]
  simp [memcmpN, match_poll_b_iff pb1 pb2]

/-- A stored info and a fresh notification for the same Type-4B card whose
`nfcid0` changed after RF loss. -/
def c2W_pb1 : NciModeParamPollB := ⟨(0x01, 0x02, 0x03, 0x04), 256, (0x50, 0x51, 0x52, 0x53), [0x81, 0x71]⟩

def c2W_pb2 : NciModeParamPollB := ⟨(0x0a, 0x0b, 0x0c, 0x0d), 256, (0x50, 0x51, 0x52, 0x53), [0x81, 0x71]⟩

def c2W_info : NciAdapterIntfInfo :=
  { rf_intf := .ISO_DEP
    protocol := .ISO_DEP
    mode := .PASSIVE_POLL_B
    mode_param := [0x01]
    activation_param := [0x33]
    mode_param_parsed := some (.poll_b c2W_pb1) }

def c2W_ntf : NciIntfActivationNtf :=
  { rf_intf := .ISO_DEP
    protocol := .ISO_DEP
    mode := .PASSIVE_POLL_B
    mode_param_bytes := [0x02]
    mode_param := some (.poll_b c2W_pb2)
    activation_param_bytes := [0x33] }

theorem c2_poll_b_match_witness :
    nci_adapter_intf_info_matches c2W_info c2W_ntf = true :=
  (c2_poll_b_match c2W_info c2W_ntf c2W_pb1 c2W_pb2 rfl rfl rfl rfl rfl
    rfl rfl rfl).mpr (by decide)

/-- C3: finalizing a non-empty payload on the Frame RF interface delivers
`transmit_done(ERROR, empty)` when the trailing status byte is
STATUS_RF_FRAME_CORRUPTED, and `transmit_done(OK, payload without its last
byte)` for every other trailing status byte — STATUS_OK, any STATUS_OK_n_BIT
(n = 1..7, all distinct from STATUS_RF_FRAME_CORRUPTED), or an unknown
status. -/
theorem c3_frame_finish (st : NciTargetSt) (payload : List Nat)
    (hne : payload ≠ []) :
    (NCI_STATUS_OK ≠ NCI_STATUS_RF_FRAME_CORRUPTED ∧
     ∀ n, 1 ≤ n → n ≤ 7 →
       NCI_STATUS_STATUS_OK_N_BIT n ≠ NCI_STATUS_RF_FRAME_CORRUPTED) ∧
    (payload.getLastD 0 = NCI_STATUS_RF_FRAME_CORRUPTED →
      (nci_target_finish_transmit nci_target_transmit_finish_frame st payload).2 =
        (NFC_TRANSMIT_STATUS.ERROR, [])) ∧
    (payload.getLastD 0 ≠ NCI_STATUS_RF_FRAME_CORRUPTED →
      (nci_target_finish_transmit nci_target_transmit_finish_frame st payload).2 =
        (NFC_TRANSMIT_STATUS.OK, payload.dropLast)) := by
  have hlen : payload.length > 0 := List.length_pos.mpr hne
  refine ⟨⟨by decide, ?_⟩, ?_, ?_⟩
  · intro n h1 _
    unfold NCI_STATUS_STATUS_OK_N_BIT NCI_STATUS_RF_FRAME_CORRUPTED
    omega
  · intro hc
    rw [List.getLastD_eq_getLast?] at hc
    unfold nci_target_finish_transmit nci_target_transmit_done_event
      nci_target_transmit_finish_frame
    simp [hlen, hc]
  · intro hc
    rw [List.getLastD_eq_getLast?] at hc
    unfold nci_target_finish_transmit nci_target_transmit_done_event
      nci_target_transmit_finish_frame
    simp [hlen, hc, List.dropLast_eq_take]

theorem c3_frame_finish_witness :
    (nci_target_finish_transmit nci_target_transmit_finish_frame
        ⟨0, true, none⟩ [0xd0, 0xd1, 0x13]).2 =
      (NFC_TRANSMIT_STATUS.OK, [0xd0, 0xd1]) :=
  (c3_frame_finish ⟨0, true, none⟩ [0xd0, 0xd1, 0x13] (by decide)).2.2 (by decide)

/-- C4: with a transmit in flight, an inbound data packet on the static RF
connection id and no reply buffered yet: while the send-complete callback
has not fired (`send_in_progress ≠ 0`) the payload is buffered as
`pending_reply` and nothing is delivered, and the later send-completion
finalizes the transmit with exactly the buffered bytes; once the send has
completed the transmit is finalized immediately; a packet with a different
connection id, with no transmit in flight, or with a reply already buffered
is ignored. -/
theorem c4_reply_race (fin : NciTransmitFinishFn) (st : NciTargetSt)
    (cid : Nat) (data : List Nat) :
    (st.transmit_in_progress = true → st.pending_reply = none →
      st.send_in_progress ≠ 0 →
      nci_target_data_packet_handler fin st NCI_STATIC_RF_CONN_ID data =
        ({ st with pending_reply := some data }, none) ∧
      nci_target_data_sent fin { st with pending_reply := some data } =
        ({ st with
            send_in_progress := 0
            pending_reply := none
            transmit_in_progress := false },
         some (nci_target_transmit_done_event fin data))) ∧
    (st.transmit_in_progress = true → st.pending_reply = none →
      st.send_in_progress = 0 →
      nci_target_data_packet_handler fin st NCI_STATIC_RF_CONN_ID data =
        ({ st with transmit_in_progress := false },
         some (nci_target_transmit_done_event fin data))) ∧
    (cid ≠ NCI_STATIC_RF_CONN_ID →
      nci_target_data_packet_handler fin st cid data = (st, none)) ∧
    (st.transmit_in_progress = false →
      nci_target_data_packet_handler fin st cid data = (st, none)) ∧
    (st.pending_reply ≠ none →
      nci_target_data_packet_handler fin st cid data = (st, none)) := by
  refine ⟨?_, ?_, ?_, ?_, ?_⟩
  · intro ht hp hs
    constructor
    · unfold nci_target_data_packet_handler
      rw [if_pos ⟨rfl, ht, hp⟩, if_pos hs]
    · unfold nci_target_data_sent nci_target_finish_transmit
      rfl
  · intro ht hp hs
    unfold nci_target_data_packet_handler nci_target_finish_transmit
    rw [if_pos ⟨rfl, ht, hp⟩, if_neg (by simp [hs])]
  · intro hc
    unfold nci_target_data_packet_handler
    rw [if_neg (by tauto)]
  · intro ht
    unfold nci_target_data_packet_handler
    rw [if_neg (by simp [ht])]
  · intro hp
    unfold nci_target_data_packet_handler
    rw [if_neg (by tauto)]

theorem c4_reply_race_witness :
    nci_target_data_packet_handler nci_target_transmit_finish_iso_dep
        ⟨7, true, none⟩ NCI_STATIC_RF_CONN_ID [0x90, 0x00] =
      (⟨7, true, some [0x90, 0x00]⟩, none) :=
  ((c4_reply_race nci_target_transmit_finish_iso_dep ⟨7, true, none⟩
      NCI_STATIC_RF_CONN_ID [0x90, 0x00]).1 rfl rfl (by decide)).1

/-- C10: in every reachable target data-path state, a buffered
`pending_reply` implies the send is still outstanding and the transmit is
in flight; consequently `nci_target_cancel_transmit` — which frees
`pending_reply` only inside the `send_in_progress` branch of the send
cancellation — never leaves a buffered reply behind. -/
theorem c10_pending_reply (s : NciTargetSt) (h : TgtReachable s) :
    (s.pending_reply ≠ none →
      s.send_in_progress ≠ 0 ∧ s.transmit_in_progress = true) ∧
    (nci_target_cancel_transmit s).pending_reply = none := by
  have hinv := tgt_pending_inv s h
  refine ⟨hinv, ?_⟩
  unfold nci_target_cancel_transmit nci_target_cancel_send
  by_cases hp : s.pending_reply = none
  · split <;> simp [hp]
  · have := (hinv hp).1
    split <;> simp_all

theorem c10_pending_reply_witness :
    ((⟨0, false, none⟩ : NciTargetSt).pending_reply ≠ none →
      (⟨0, false, none⟩ : NciTargetSt).send_in_progress ≠ 0 ∧
      (⟨0, false, none⟩ : NciTargetSt).transmit_in_progress = true) ∧
    (nci_target_cancel_transmit ⟨0, false, none⟩).pending_reply = none :=
  c10_pending_reply ⟨0, false, none⟩ TgtReachable.init

/-- `nci_adapter_need_presence_checks` spelled out. -/
theorem need_presence_iff (s : AdapterSt) :
    nci_adapter_need_presence_checks s = true ↔
      (s.target = true ∧ ∃ intf, s.active_intf = some intf ∧
        intf.protocol ≠ NCI_PROTOCOL.NFC_DEP) := by
  unfold nci_adapter_need_presence_checks
  cases h : s.active_intf <;> simp [h]

/-- A plain Type-2 tag activation notification (frame interface, passive
poll A), stored by object detection as the active interface info. -/
def c5W_ntf : NciIntfActivationNtf :=
  { rf_intf := .FRAME
    protocol := .T2T
    mode := .PASSIVE_POLL_A
    mode_param_bytes := [0x44, 0x00]
    mode_param := some (.poll_a ⟨(0x44, 0x00), 4, [0x04, 0x01, 0x02, 0x03], 1, 0x00⟩)
    activation_param_bytes := [] }

def c5W_oracle : DetectOracle := ⟨false, false, false, false⟩

/-- C5 (amended): in every reachable adapter state, a non-null `active_intf`
implies `internal_state ≠ IDLE`. The converse direction of the claimed
equivalence fails: see the counterexample. -/
theorem c5_active_intf_not_idle (s : AdapterSt) (h : AdapterReachable s) :
    s.active_intf.isSome = true → s.internal_state ≠ NCI_ADAPTER_STATE.IDLE := by
  obtain ⟨-, -, h3, -, -⟩ := (adapter_inv s h).1
  intro hi hidle
  rw [h3 hidle] at hi
  simp at hi

/-- The adapter state after activating a plain Type-2 tag from the initial
state: HAVE_TARGET with a stored interface info. -/
def c5W_st : AdapterSt :=
  (nci_adapter_activation_step (nci_adapter_initial NCI_TECH_ALL)
    c5W_ntf c5W_oracle).1

theorem c5_active_intf_not_idle_witness :
    (c5W_st.internal_state = NCI_ADAPTER_STATE.IDLE) = False :=
  eq_false (c5_active_intf_not_idle c5W_st
    (AdapterReachable.activation c5W_ntf c5W_oracle
      (AdapterReachable.init NCI_TECH_ALL)) (by decide))

/-- An NFC-DEP poll-side activation: `nci_target_new` succeeds and the
peer-initiator factory accepts it, so `active_intf` is never stored. -/
def c5X_ntf : NciIntfActivationNtf :=
  { rf_intf := .NFC_DEP
    protocol := .NFC_DEP
    mode := .PASSIVE_POLL_A
    mode_param_bytes := []
    mode_param := none
    activation_param_bytes := [] }

def c5X_oracle : DetectOracle := ⟨true, true, true, true⟩

def c5X_st : AdapterSt :=
  (nci_adapter_activation_step (nci_adapter_initial NCI_TECH_ALL)
    c5X_ntf c5X_oracle).1

/-- C5 counterexample: after a single peer-initiator (NFC-DEP poll)
activation from the initial state the adapter is in HAVE_TARGET with
`active_intf = NULL`, refuting the claimed equivalence. -/
theorem c5_counterexample :
    ¬ (∀ s : AdapterSt, AdapterReachable s →
        (s.active_intf.isSome = true ↔
          s.internal_state ≠ NCI_ADAPTER_STATE.IDLE)) := by
  intro hall
  have hr : AdapterReachable c5X_st :=
    AdapterReachable.activation c5X_ntf c5X_oracle
      (AdapterReachable.init NCI_TECH_ALL)
  have hx := (hall c5X_st hr).mpr (by decide)
  exact absurd hx (by decide)

/-- The final block of `nci_adapter_activation` leaves the presence-check
timer armed exactly when the post-activation state needs presence checks. -/
theorem activation_presence_iff (s : AdapterSt) (ntf : NciIntfActivationNtf)
    (o : DetectOracle) :
    (nci_adapter_activation_step s ntf o).1.presence_check_timer.isSome = true ↔
      nci_adapter_need_presence_checks
        (nci_adapter_activation_step s ntf o).1 = true := by
  show (presence_timer_of
    (nci_adapter_object_detection
      (nci_adapter_activation_sm { s with ce_reactivation_timer := none } ntf).1
      ntf o)).isSome = true ↔ _
  have hneed : nci_adapter_need_presence_checks
      (nci_adapter_activation_step s ntf o).1 =
      nci_adapter_need_presence_checks
        (nci_adapter_object_detection
          (nci_adapter_activation_sm { s with ce_reactivation_timer := none } ntf).1
          ntf o) := rfl
  rw [hneed]
  unfold presence_timer_of
  by_cases hn : nci_adapter_need_presence_checks
      (nci_adapter_object_detection
        (nci_adapter_activation_sm { s with ce_reactivation_timer := none } ntf).1
        ntf o) = true <;> simp [hn]

/-- C6 (amended): in every reachable adapter state, an armed presence-check
timer implies that a target is present, that the active interface info
exists with a protocol other than NFC-DEP, and that no target reactivation
is in flight; and right after any activation is handled, the timer is armed
iff a target is present and the active interface info exists with a
protocol other than NFC-DEP. The unrestricted equivalence fails in
REACTIVATING_TARGET (a successful reactivate stops the timer) and after a
presence-probe start failure (the timer tick stops the timer with the
target still present): see the counterexample. -/
theorem c6_presence_timer (s : AdapterSt) (h : AdapterReachable s) :
    (s.presence_check_timer.isSome = true →
      (s.target = true ∧
       (∃ intf, s.active_intf = some intf ∧
         intf.protocol ≠ NCI_PROTOCOL.NFC_DEP) ∧
       s.internal_state ≠ NCI_ADAPTER_STATE.REACTIVATING_TARGET)) ∧
    (∀ (ntf : NciIntfActivationNtf) (o : DetectOracle),
      (nci_adapter_activation_step s ntf o).1.presence_check_timer.isSome = true ↔
        ((nci_adapter_activation_step s ntf o).1.target = true ∧
         ∃ intf, (nci_adapter_activation_step s ntf o).1.active_intf = some intf ∧
           intf.protocol ≠ NCI_PROTOCOL.NFC_DEP)) := by
  constructor
  · intro harm
    have hp := (adapter_inv s h).2
    obtain ⟨hn, hrt⟩ := hp harm
    obtain ⟨h1, h2⟩ := (need_presence_iff s).mp hn
    exact ⟨h1, h2, hrt⟩
  · intro ntf o
    exact (activation_presence_iff s ntf o).trans
      (need_presence_iff (nci_adapter_activation_step s ntf o).1)

theorem c6_presence_timer_witness :
    (nci_adapter_activation_step (nci_adapter_initial NCI_TECH_ALL)
        c5W_ntf c5W_oracle).1.presence_check_timer.isSome = true ↔
      ((nci_adapter_activation_step (nci_adapter_initial NCI_TECH_ALL)
          c5W_ntf c5W_oracle).1.target = true ∧
       ∃ intf, (nci_adapter_activation_step (nci_adapter_initial NCI_TECH_ALL)
          c5W_ntf c5W_oracle).1.active_intf = some intf ∧
         intf.protocol ≠ NCI_PROTOCOL.NFC_DEP) :=
  (c6_presence_timer (nci_adapter_initial NCI_TECH_ALL)
    (AdapterReachable.init NCI_TECH_ALL)).2 c5W_ntf c5W_oracle

/-- A plain Type-2 tag activation (frame interface, passive poll A). -/
def c6X_ntf : NciIntfActivationNtf :=
  { rf_intf := .FRAME
    protocol := .T2T
    mode := .PASSIVE_POLL_A
    mode_param_bytes := [0x44, 0x00]
    mode_param := some (.poll_a ⟨(0x44, 0x00), 4, [0x04, 0x01, 0x02, 0x03], 1, 0x00⟩)
    activation_param_bytes := [] }

def c6X_oracle : DetectOracle := ⟨false, false, false, false⟩

def c6X_st : AdapterSt :=
  (nci_adapter_reactivate_step
    (nci_adapter_activation_step (nci_adapter_initial NCI_TECH_ALL)
      c6X_ntf c6X_oracle).1
    true .RFST_POLL_ACTIVE .RFST_POLL_ACTIVE).2.1

/-- C6 counterexample: reactivating the Type-2 target stops the
presence-check timer while the target and its non-NFC-DEP interface info are
still present, refuting the claimed equivalence. -/
theorem c6_counterexample :
    ¬ (∀ s : AdapterSt, AdapterReachable s →
        (s.presence_check_timer.isSome = true ↔
          (s.target = true ∧ ∃ intf, s.active_intf = some intf ∧
            intf.protocol ≠ NCI_PROTOCOL.NFC_DEP))) := by
  intro hall
  have hr : AdapterReachable c6X_st :=
    AdapterReachable.reactivate true .RFST_POLL_ACTIVE .RFST_POLL_ACTIVE
      (AdapterReachable.activation c6X_ntf c6X_oracle
        (AdapterReachable.init NCI_TECH_ALL))
  have hx := (hall c6X_st hr).mpr
    ⟨by decide, ⟨nci_adapter_intf_info_new c6X_ntf, by decide, by decide⟩⟩
  exact absurd hx (by decide)

/-- C7: a reactivation request for the adapter's current (non-null) target
succeeds — returning true, switching to REACTIVATING_TARGET, stopping the
presence-check timer and commanding NCI to DISCOVERY — exactly when
`internal_state = HAVE_TARGET`, `active_intf` is set, and NCI's current and
next state both equal POLL_ACTIVE or both equal LISTEN_ACTIVE; under any
other condition it returns false and changes nothing. -/
theorem c7_reactivate (s : AdapterSt) (cur next : NCI_RF_STATE)
    (ht : s.target = true) :
    ((s.internal_state = NCI_ADAPTER_STATE.HAVE_TARGET ∧
      s.active_intf.isSome = true ∧
      ((cur = NCI_RF_STATE.RFST_POLL_ACTIVE ∧
        next = NCI_RF_STATE.RFST_POLL_ACTIVE) ∨
       (cur = NCI_RF_STATE.RFST_LISTEN_ACTIVE ∧
        next = NCI_RF_STATE.RFST_LISTEN_ACTIVE))) →
      nci_adapter_reactivate_step s true cur next =
        (true,
         { s with
            internal_state := NCI_ADAPTER_STATE.REACTIVATING_TARGET
            presence_check_timer := none },
         [AdapterOut.setState NCI_RF_STATE.RFST_DISCOVERY])) ∧
    (¬ (s.internal_state = NCI_ADAPTER_STATE.HAVE_TARGET ∧
        s.active_intf.isSome = true ∧
        ((cur = NCI_RF_STATE.RFST_POLL_ACTIVE ∧
          next = NCI_RF_STATE.RFST_POLL_ACTIVE) ∨
         (cur = NCI_RF_STATE.RFST_LISTEN_ACTIVE ∧
          next = NCI_RF_STATE.RFST_LISTEN_ACTIVE))) →
      nci_adapter_reactivate_step s true cur next = (false, s, [])) := by
  constructor
  · rintro ⟨h1, h2, h3⟩
    unfold nci_adapter_reactivate_step
    rw [if_pos ⟨rfl, ht, h2, h1, h3⟩]
  · intro hneg
    unfold nci_adapter_reactivate_step
    rw [if_neg (by tauto)]

/-- A HAVE_TARGET state with a stored interface info. -/
def c7W_st : AdapterSt :=
  { internal_state := .HAVE_TARGET
    active_intf := some (nci_adapter_intf_info_new c6X_ntf)
    target := true
    initiator := none
    host := false
    presence_check_timer := some PRESENCE_CHECK_PERIOD_MS
    ce_reactivation_timer := none
    active_techs := NCI_TECH_ALL
    active_tech_mask := NCI_TECH_ALL }

theorem c7_reactivate_witness :
    nci_adapter_reactivate_step c7W_st true NCI_RF_STATE.RFST_POLL_ACTIVE
        NCI_RF_STATE.RFST_POLL_ACTIVE =
      (true,
       { c7W_st with
          internal_state := NCI_ADAPTER_STATE.REACTIVATING_TARGET
          presence_check_timer := none },
       [AdapterOut.setState NCI_RF_STATE.RFST_DISCOVERY]) :=
  (c7_reactivate c7W_st NCI_RF_STATE.RFST_POLL_ACTIVE
      NCI_RF_STATE.RFST_POLL_ACTIVE rfl).1
    ⟨rfl, by decide, Or.inl ⟨rfl, rfl⟩⟩

/-- C8: a deactivation in HAVE_INITIATOR with a host present moves the
adapter to REACTIVATING_CE and arms the 1500 ms CE-reactivation timer;
for initiator technology A it additionally locks `active_tech_mask` to
TECH_A_LISTEN and pushes `active_techs & TECH_A_LISTEN` to NCI (technology B
analogously with TECH_B_LISTEN); for any other technology the mask is left
unchanged and no tech setting is pushed. -/
theorem c8_ce_deactivation (s : AdapterSt) (tech : NFC_TECHNOLOGY)
    (hst : s.internal_state = NCI_ADAPTER_STATE.HAVE_INITIATOR)
    (hh : s.host = true)
    (hi : s.initiator = some tech) :
    CE_REACTIVATION_TIMEOUT_MS = 1500 ∧
    (nci_adapter_deactivation_step s).1.internal_state =
      NCI_ADAPTER_STATE.REACTIVATING_CE ∧
    (nci_adapter_deactivation_step s).1.ce_reactivation_timer =
      some CE_REACTIVATION_TIMEOUT_MS ∧
    (tech = NFC_TECHNOLOGY.A →
      (nci_adapter_deactivation_step s).1.active_tech_mask = NCI_TECH_A_LISTEN ∧
      (nci_adapter_deactivation_step s).2 =
        [AdapterOut.setTech (Nat.land s.active_techs NCI_TECH_A_LISTEN)]) ∧
    (tech = NFC_TECHNOLOGY.B →
      (nci_adapter_deactivation_step s).1.active_tech_mask = NCI_TECH_B_LISTEN ∧
      (nci_adapter_deactivation_step s).2 =
        [AdapterOut.setTech (Nat.land s.active_techs NCI_TECH_B_LISTEN)]) ∧
    ((tech = NFC_TECHNOLOGY.F ∨ tech = NFC_TECHNOLOGY.UNKNOWN) →
      (nci_adapter_deactivation_step s).1.active_tech_mask = s.active_tech_mask ∧
      (nci_adapter_deactivation_step s).2 = []) := by
  unfold nci_adapter_deactivation_step
  cases tech <;>
    simp_all [NCI_TECH_A_LISTEN, NCI_TECH_B_LISTEN, NCI_TECH_NONE,
      CE_REACTIVATION_TIMEOUT_MS]

/-- A HAVE_INITIATOR state with a technology-A initiator and a host. -/
def c8W_st : AdapterSt :=
  { internal_state := .HAVE_INITIATOR
    active_intf := some (nci_adapter_intf_info_new c5X_ntf)
    target := false
    initiator := some .A
    host := true
    presence_check_timer := none
    ce_reactivation_timer := none
    active_techs := NCI_TECH_ALL
    active_tech_mask := NCI_TECH_ALL }

theorem c8_ce_deactivation_witness :
    (nci_adapter_deactivation_step c8W_st).1.internal_state =
      NCI_ADAPTER_STATE.REACTIVATING_CE ∧
    (nci_adapter_deactivation_step c8W_st).1.ce_reactivation_timer =
      some CE_REACTIVATION_TIMEOUT_MS :=
  ⟨(c8_ce_deactivation c8W_st .A rfl rfl rfl).2.1,
   (c8_ce_deactivation c8W_st .A rfl rfl rfl).2.2.1⟩

/-- C9: when the CE-reactivation timer expires in REACTIVATING_CE with an
initiator present (and, as in every listen-side state, no target), the
adapter returns to IDLE, drops the initiator delivering its gone
notification, restores `active_tech_mask` to TECH_ALL, and pushes
`active_techs` back to NCI. -/
theorem c9_ce_timeout (s : AdapterSt)
    (_hst : s.internal_state = NCI_ADAPTER_STATE.REACTIVATING_CE)
    (hi : s.initiator.isSome = true)
    (htg : s.target = false) :
    (nci_adapter_ce_timeout_step s).1.internal_state =
      NCI_ADAPTER_STATE.IDLE ∧
    (nci_adapter_ce_timeout_step s).1.initiator = none ∧
    (nci_adapter_ce_timeout_step s).1.active_tech_mask = NCI_TECH_ALL ∧
    (nci_adapter_ce_timeout_step s).1.ce_reactivation_timer = none ∧
    (nci_adapter_ce_timeout_step s).2 =
      [AdapterOut.setTech s.active_techs, AdapterOut.initiatorGone] := by
  unfold nci_adapter_ce_timeout_step nci_adapter_drop_all
    nci_adapter_drop_target nci_adapter_drop_initiator
  cases h : s.initiator <;> simp_all [htg]

/-- A REACTIVATING_CE state whose 1.5 s window is about to expire. -/
def c9W_st : AdapterSt :=
  { internal_state := .REACTIVATING_CE
    active_intf := some (nci_adapter_intf_info_new c5X_ntf)
    target := false
    initiator := some .A
    host := true
    presence_check_timer := none
    ce_reactivation_timer := some CE_REACTIVATION_TIMEOUT_MS
    active_techs := 0x33
    active_tech_mask := NCI_TECH_A_LISTEN }

theorem c9_ce_timeout_witness :
    (nci_adapter_ce_timeout_step c9W_st).1.internal_state =
      NCI_ADAPTER_STATE.IDLE ∧
    (nci_adapter_ce_timeout_step c9W_st).1.initiator = none ∧
    (nci_adapter_ce_timeout_step c9W_st).1.active_tech_mask = NCI_TECH_ALL ∧
    (nci_adapter_ce_timeout_step c9W_st).1.ce_reactivation_timer = none ∧
    (nci_adapter_ce_timeout_step c9W_st).2 =
      [AdapterOut.setTech c9W_st.active_techs, AdapterOut.initiatorGone] :=
  c9_ce_timeout c9W_st rfl rfl rfl
